/-
Verification of the domainlookup RDAP bulk-lookup tool
(cmd/domainlookup/domainlookup.go) against its specification.

The development shallowly embeds the Go source:
  * `RdapDNS.LookupMap` builds the registry directory from the bootstrap
    document (Go maps are modelled as functions `String → Option (List String)`,
    map assignment as pointwise update);
  * `topdomain`, `rdapLookupURL` and `statusMessage` embed the worker's helper
    methods and the inline status `switch`;
  * `lookupTask` embeds the body of the goroutine spawned per domain inside
    `LookupWorker.Start`, with HTTP modelled as an oracle
    `String → Except String Int` (transport error text, or response status);
    it also returns the list of issued request URLs;
  * `StartStep`/`StartReachable` give a small-step interleaving semantics of
    `LookupWorker.Start`: the dispatch loop (WaitGroup add, semaphore acquire,
    goroutine spawn), goroutine completion (result emission, semaphore release,
    WaitGroup done) and the final `close(worker.Result)` after `wg.Wait()`.
-/
import Mathlib

set_option maxHeartbeats 1000000

/-- Embeds `RdapDNSservice [][]string`: one bootstrap "service" tuple,
expected to be `[labels, urls]`. -/
abbrev RdapDNSservice : Type := List (List String)

/-- Embeds the Go struct `RdapDNS` parsed from the ICANN bootstrap JSON. -/
structure RdapDNS where
  Description : String
  Publication : String
  Services : List RdapDNSservice

/-- The fresh Go map `make(map[string][]string)` at the start of `LookupMap`. -/
def emptyRdapMap : String → Option (List String) := fun _ => none

/-- Go map assignment `m[topdomain] = service[1]`, modelled pointwise. -/
def mapAssign (m : String → Option (List String)) (k : String) (v : List String) :
    String → Option (List String) :=
  fun x => if x = k then some v else m x

/-- The inner loop `for _, topdomain := range service[0] { m[topdomain] = service[1] }`. -/
def insertService (m : String → Option (List String)) (tds urls : List String) :
    String → Option (List String) :=
  tds.foldl (fun acc td => mapAssign acc td urls) m

/-- The `for _, service := range dns.Services` loop of `LookupMap`: each tuple
must have exactly two elements (`len(service) != 2` is a fatal error), and a
2-tuple `[tds, urls]` assigns `urls` to every label in `tds`. -/
def buildMap : List RdapDNSservice → (String → Option (List String)) →
    Except String (String → Option (List String))
  | [], m => .ok m
  | [tds, urls] :: rest, m => buildMap rest (insertService m tds urls)
  | service :: _, _ =>
    .error ("service is not a tuple. service " ++ toString service)

/-- Embeds `(dns *RdapDNS) LookupMap()`: `none` models a nil receiver; a nil
receiver or an empty `Services` slice yields the error
`"rdap services is empty"`, otherwise the directory is built tuple by tuple. -/
def RdapDNS.LookupMap (dns : Option RdapDNS) : Except String (String → Option (List String)) :=
  match dns with
  | none => .error "rdap services is empty"
  | some d =>
    if d.Services.length = 0 then .error "rdap services is empty"
    else buildMap d.Services emptyRdapMap

/-- Splitting a character list on the character `'.'`.  Backs
`stringsSplitDot` below. -/
def splitDotChars : List Char → List (List Char)
  | [] => [[]]
  | c :: rest =>
    if c = '.' then [] :: splitDotChars rest
    else
      match splitDotChars rest with
      | [] => [[c]]
      | seg :: segs => (c :: seg) :: segs

/-- Embeds Go's `strings.Split(s, ".")`: the maximal subsequences of `s`
between occurrences of `"."` (always at least one element; `[""]` for the
empty string). -/
def stringsSplitDot (s : String) : List String :=
  (splitDotChars s.data).map (fun cs => ⟨cs⟩)

/-- Embeds `(worker *LookupWorker) topdomain(domain)`: empty domain gives the
empty label; otherwise split on `"."` and take the final segment
(`arr[len(arr)-1]`; Go's `strings.Split` with a non-empty separator never
returns an empty slice, so the `getLastD` default is never used). -/
def topdomain (domain : String) : String :=
  if domain = "" then ""
  else (stringsSplitDot domain).getLastD ""

/-- Embeds `rdapLookupURL`: `fmt.Sprintf("%s/domain/%s", rdap, domain)`. -/
def rdapLookupURL (rdap : String) (domain : String) : String :=
  rdap ++ "/domain/" ++ domain

/-- Embeds the `switch` on `resp.StatusCode` inside the `Start` goroutine. -/
def statusMessage (statusCode : Int) : String :=
  if 200 ≤ statusCode ∧ statusCode < 300 then "Registered"
  else if statusCode = 404 then "Unregistered"
  else if 500 ≤ statusCode then "RDAP server error"
  else "Unknown error"

/-- Embeds the (empty) Go struct `RdapLookupResult`. -/
structure RdapLookupResult where
  deriving DecidableEq

/-- Embeds the Go struct `DomainLookupResult`; the `Result` pointer is nil
(`none`) everywhere in the source. -/
structure DomainLookupResult where
  Domain : String
  Message : String
  Result : Option RdapLookupResult
  deriving DecidableEq

/-- Embeds the body of the per-domain goroutine in `LookupWorker.Start`
(together with `queryRdap`): directory miss or empty endpoint list give
"No RDAP server found"; otherwise one GET on `rdapLookupURL apis[0] domain`
is issued, a transport error becomes the message verbatim, and a status code
is classified by `statusMessage`.  The second component collects the request
URLs issued for this domain (the `http.Get` calls made by `queryRdap`). -/
def lookupTask (rdapLookupMap : String → Option (List String))
    (http : String → Except String Int) (domain : String) :
    DomainLookupResult × List String :=
  match rdapLookupMap (topdomain domain) with
  | none => (⟨domain, "No RDAP server found", none⟩, [])
  | some [] => (⟨domain, "No RDAP server found", none⟩, [])
  | some (api :: _) =>
    let query := rdapLookupURL api domain
    match http query with
    | .error e => (⟨domain, e, none⟩, [query])
    | .ok statusCode => (⟨domain, statusMessage statusCode, none⟩, [query])

/-- Embeds the fields of `LookupWorker` that `Start` reads (the channels
become the explicit state of `StartStep`). -/
structure LookupWorker where
  rdapLookupMap : String → Option (List String)
  concurrencyLimit : Nat

/-- State of an execution of `LookupWorker.Start`:
`unchecked` are the domains not yet received from the input channel,
`inflight` the spawned goroutines that have not finished, `sem` the number of
tokens currently in the `concurrencies` channel, `Result` the outcomes emitted
so far, `closed` whether `close(worker.Result)` has run. -/
structure StartState where
  unchecked : List String
  inflight : List String
  sem : Nat
  Result : List DomainLookupResult
  closed : Bool

/-- Initial state of `Start` on a given input feed. -/
def initState (domains : List String) : StartState :=
  ⟨domains, [], 0, [], false⟩

/-- Small-step semantics of `LookupWorker.Start`.
`dispatch`: the main loop receives the next domain, does `wg.Add(1)`, acquires
a semaphore slot (`worker.concurrencies <- struct{}{}` — only possible while
fewer than `concurrencyLimit` tokens are held) and spawns the goroutine.
`finish`: some in-flight goroutine sends its `DomainLookupResult` and then, via
`defer`, releases its semaphore slot and calls `wg.Done()`.
`close`: after the input channel is drained and `wg.Wait()` passes (no goroutine
in flight), `close(worker.Result)` runs. -/
inductive StartStep (w : LookupWorker) (http : String → Except String Int) :
    StartState → StartState → Prop
  | dispatch (d : String) (rest : List String) (s : StartState)
      (hq : s.unchecked = d :: rest) (hsem : s.sem < w.concurrencyLimit)
      (hc : s.closed = false) :
      StartStep w http s ⟨rest, s.inflight ++ [d], s.sem + 1, s.Result, false⟩
  | finish (d : String) (s : StartState)
      (hd : d ∈ s.inflight) (hc : s.closed = false) :
      StartStep w http s
        ⟨s.unchecked, s.inflight.erase d, s.sem - 1,
          s.Result ++ [(lookupTask w.rdapLookupMap http d).1], false⟩
  | close (s : StartState)
      (hq : s.unchecked = []) (hi : s.inflight = []) (hc : s.closed = false) :
      StartStep w http s ⟨[], [], s.sem, s.Result, true⟩

/-- Reachability in the `Start` semantics. -/
abbrev StartReachable (w : LookupWorker) (http : String → Except String Int) :
    StartState → StartState → Prop :=
  Relation.ReflTransGen (StartStep w http)

/-- Spec-side definition, used only for the refinement comparison and written
from the spec's words: "if a label appears in multiple tuples, the later
tuple's endpoint list silently overwrites the earlier one (last-write-wins)" —
the directory value of a label is the endpoint list (second tuple component)
of the last tuple, in document order, whose label list (first tuple component)
contains the label. -/
def lastTupleEndpoints (services : List RdapDNSservice) (label : String) :
    Option (List String) :=
  (services.reverse.find? (fun s => (s.headD []).contains label)).map
    (fun s => s.getD 1 [])

example : topdomain "a.b.com" = "com" := by decide
example : topdomain "" = "" := by decide
example : stringsSplitDot "" = [""] := by decide
example : stringsSplitDot "a.b" = ["a", "b"] := by decide
example : stringsSplitDot "a." = ["a", ""] := by decide
example : rdapLookupURL "http://r1" "a.com" = "http://r1/domain/a.com" := by decide
example : statusMessage 204 = "Registered" := by decide
example : statusMessage 404 = "Unregistered" := by decide
example : statusMessage 503 = "RDAP server error" := by decide
example : statusMessage 301 = "Unknown error" := by decide
example : RdapDNS.LookupMap (some ⟨"", "", []⟩) = .error "rdap services is empty" := by rfl
example :
    RdapDNS.LookupMap (some ⟨"", "", [[["com"], ["http://r1"]]]⟩) =
      .ok (insertService emptyRdapMap ["com"] ["http://r1"]) := by rfl
example : insertService emptyRdapMap ["com"] ["http://r1"] "com" = some ["http://r1"] := by decide
example :
    lookupTask (insertService emptyRdapMap ["com"] ["http://r1"])
      (fun _ => .ok 404) "a.com" =
      (⟨"a.com", "Unregistered", none⟩, ["http://r1/domain/a.com"]) := by decide

/-- Claim C8: the extracted top-level label equals the final segment of the
domain split on the dot separator, and the empty domain yields the empty
label (coinciding with the split-based reading, not a separate error path). -/
theorem topdomain_is_last_dot_segment :
    (∀ domain : String, topdomain domain = (stringsSplitDot domain).getLastD "") ∧
    topdomain "" = "" ∧ stringsSplitDot "" = [""] := by
  refine ⟨?_, by decide, by decide⟩
  intro domain
  by_cases h : domain = ""
  · subst h; decide
  · simp [topdomain, h]

/-- Claim C9: the query target is the endpoint base URL, the fixed segment
"/domain/" and the raw domain string concatenated, with no transformation of
the caller-supplied characters (character-for-character concatenation). -/
theorem rdapLookupURL_raw_concat :
    ∀ (rdap domain : String),
      rdapLookupURL rdap domain = rdap ++ "/domain/" ++ domain ∧
      (rdapLookupURL rdap domain).data =
        rdap.data ++ "/domain/".data ++ domain.data := by
  intro rdap domain
  constructor
  · rfl
  · simp [rdapLookupURL, String.data_append]

/-- Claim C4: a domain whose top-level label misses the registry directory
yields the outcome "No RDAP server found" with the domain unchanged, and no
request URL is issued. -/
theorem lookupTask_noProvider_on_miss
    (m : String → Option (List String)) (http : String → Except String Int)
    (domain : String) (hm : m (topdomain domain) = none) :
    lookupTask m http domain = (⟨domain, "No RDAP server found", none⟩, []) := by
  simp [lookupTask, hm]

/-- Witness for C4 at a concrete miss. -/
theorem lookupTask_noProvider_on_miss_witness :
    lookupTask (fun _ => none) (fun _ => Except.ok 200) "a.zz" =
      (⟨"a.zz", "No RDAP server found", none⟩, []) :=
  lookupTask_noProvider_on_miss (fun _ => none) (fun _ => Except.ok 200) "a.zz" rfl

/-- Claim C10: a directory hit whose endpoint list is empty behaves exactly
like a miss — outcome "No RDAP server found", domain unchanged, no request
URL issued. -/
theorem lookupTask_noProvider_on_empty_endpoints
    (m : String → Option (List String)) (http : String → Except String Int)
    (domain : String) (hm : m (topdomain domain) = some []) :
    lookupTask m http domain = (⟨domain, "No RDAP server found", none⟩, []) := by
  simp [lookupTask, hm]

/-- Witness for C10 at a concrete empty-endpoint hit. -/
theorem lookupTask_noProvider_on_empty_endpoints_witness :
    lookupTask (fun _ => some []) (fun _ => Except.ok 200) "a.com" =
      (⟨"a.com", "No RDAP server found", none⟩, []) :=
  lookupTask_noProvider_on_empty_endpoints (fun _ => some [])
    (fun _ => Except.ok 200) "a.com" rfl

/-- Claim C2: for a domain that reaches the network step (its label maps to a
non-empty endpoint list), a transport error makes the outcome message the
underlying error text, and a response status s is classified as "Registered"
for 200 ≤ s < 300, "Unregistered" for 404, "RDAP server error" for s ≥ 500 and
"Unknown error" otherwise; the outcome always carries the original domain. -/
theorem lookupTask_status_classification
    (m : String → Option (List String)) (http : String → Except String Int)
    (domain api : String) (rest : List String)
    (hm : m (topdomain domain) = some (api :: rest)) :
    (∀ e, http (rdapLookupURL api domain) = .error e →
      (lookupTask m http domain).1 = ⟨domain, e, none⟩) ∧
    (∀ statusCode : Int, http (rdapLookupURL api domain) = .ok statusCode →
      (lookupTask m http domain).1.Domain = domain ∧
      (200 ≤ statusCode ∧ statusCode < 300 →
        (lookupTask m http domain).1.Message = "Registered") ∧
      (statusCode = 404 →
        (lookupTask m http domain).1.Message = "Unregistered") ∧
      (500 ≤ statusCode →
        (lookupTask m http domain).1.Message = "RDAP server error") ∧
      (¬(200 ≤ statusCode ∧ statusCode < 300) ∧ statusCode ≠ 404 ∧ statusCode < 500 →
        (lookupTask m http domain).1.Message = "Unknown error")) := by
  constructor
  · intro e he
    simp [lookupTask, hm, he]
  · intro statusCode hst
    have hres : (lookupTask m http domain).1 = ⟨domain, statusMessage statusCode, none⟩ := by
      simp [lookupTask, hm, hst]
    rw [hres]
    refine ⟨rfl, ?_, ?_, ?_, ?_⟩ <;> intro h <;>
      simp only [statusMessage] <;> split_ifs <;>
      first
        | rfl
        | omega

/-- Witness for C2: a concrete 404 response is reported as "Unregistered". -/
theorem lookupTask_status_classification_witness :
    (lookupTask (fun _ => some ["http://r1"]) (fun _ => Except.ok 404) "a.com").1.Message =
      "Unregistered" :=
  ((lookupTask_status_classification (fun _ => some ["http://r1"])
      (fun _ => Except.ok 404) "a.com" "http://r1" [] rfl).2 404 rfl).2.2.1 rfl

/-- Helper for C5: a tuple of length ≠ 2 anywhere in the service list makes
the directory build fail, whatever map has been accumulated so far. -/
theorem buildMap_error_of_bad_tuple (services : List RdapDNSservice)
    (m0 : String → Option (List String)) (service : RdapDNSservice)
    (hs : service ∈ services) (hlen : service.length ≠ 2) :
    ∃ e, buildMap services m0 = .error e := by
  induction services generalizing m0 with
  | nil => cases hs
  | cons hd tl ih =>
    rcases List.mem_cons.mp hs with heq | htl
    · subst heq
      rcases service with _ | ⟨a, _ | ⟨b, _ | ⟨c, t⟩⟩⟩
      · exact ⟨_, rfl⟩
      · exact ⟨_, rfl⟩
      · exact absurd rfl hlen
      · exact ⟨_, rfl⟩
    · rcases hd with _ | ⟨a, _ | ⟨b, _ | ⟨c, t⟩⟩⟩
      · exact ⟨_, rfl⟩
      · exact ⟨_, rfl⟩
      · exact ih (insertService m0 a b) htl
      · exact ⟨_, rfl⟩

/-- Claim C5: a bootstrap document containing a service tuple that is not a
2-tuple makes the whole directory build fail with an error; no directory (not
even a partial one) is returned. -/
theorem lookupMap_error_on_bad_tuple (dns : RdapDNS) (service : RdapDNSservice)
    (hs : service ∈ dns.Services) (hlen : service.length ≠ 2) :
    ∃ e, RdapDNS.LookupMap (some dns) = .error e := by
  have hne : dns.Services.length ≠ 0 := by
    intro h0
    rw [List.length_eq_zero] at h0
    rw [h0] at hs
    cases hs
  obtain ⟨e, he⟩ := buildMap_error_of_bad_tuple dns.Services emptyRdapMap service hs hlen
  refine ⟨e, ?_⟩
  simp only [RdapDNS.LookupMap]
  rw [if_neg hne]
  exact he

/-- Witness for C5 at a concrete document with one 3-element tuple. -/
theorem lookupMap_error_on_bad_tuple_witness :
    ∃ e, RdapDNS.LookupMap
      (some ⟨"", "", [[["com"], ["http://r1"], ["extra"]]]⟩) = .error e :=
  lookupMap_error_on_bad_tuple ⟨"", "", [[["com"], ["http://r1"], ["extra"]]]⟩
    [["com"], ["http://r1"], ["extra"]] (by decide) (by decide)

/-- Counterexample for C6 as stated: on a document with an empty service list
the build does fail, but the error message is "rdap services is empty", not
"no routing information available". -/
theorem lookupMap_empty_services_message_counterexample :
    RdapDNS.LookupMap (some ⟨"", "", []⟩) = .error "rdap services is empty" ∧
    "rdap services is empty" ≠ "no routing information available" := by
  exact ⟨rfl, by decide⟩

/-- Claim C6 (amended): a bootstrap document whose service list is empty makes
the directory build fail with the error message "rdap services is empty", and
no directory is returned. -/
theorem lookupMap_error_on_empty_services (dns : RdapDNS)
    (h : dns.Services = []) :
    RdapDNS.LookupMap (some dns) = .error "rdap services is empty" := by
  simp [RdapDNS.LookupMap, h]

/-- Witness for C6 (amended) at a concrete empty document. -/
theorem lookupMap_error_on_empty_services_witness :
    RdapDNS.LookupMap (some ⟨"desc", "pub", []⟩) = .error "rdap services is empty" :=
  lookupMap_error_on_empty_services ⟨"desc", "pub", []⟩ rfl

/-- Helper for C7: looking up a label after inserting one tuple finds the
tuple's endpoint list when the label is among the tuple's labels, and the
previous binding otherwise. -/
theorem insertService_lookup (tds urls : List String)
    (m : String → Option (List String)) (x : String) :
    insertService m tds urls x = if x ∈ tds then some urls else m x := by
  induction tds generalizing m with
  | nil => simp [insertService]
  | cons td rest ih =>
    simp only [insertService, List.foldl_cons] at ih ⊢
    rw [ih (mapAssign m td urls)]
    by_cases hx : x ∈ rest
    · simp [hx]
    · by_cases he : x = td <;> simp [mapAssign, hx, he]

/-- Helper for C7: unfolding `lastTupleEndpoints` over the head tuple — later
tuples take precedence over the head. -/
theorem lastTupleEndpoints_cons (s : RdapDNSservice) (tl : List RdapDNSservice)
    (label : String) :
    lastTupleEndpoints (s :: tl) label =
      (lastTupleEndpoints tl label).or
        (if (s.headD []).contains label then some (s.getD 1 []) else none) := by
  unfold lastTupleEndpoints
  rw [List.reverse_cons, List.find?_append]
  cases h : tl.reverse.find? (fun t => (t.headD []).contains label) with
  | none =>
    by_cases hp : (s.headD []).contains label <;> simp [hp]
  | some v => simp

/-- Helper for C7: a successful directory build resolves every label to the
last tuple containing it, falling back to the initial map. -/
theorem buildMap_ok_lookup (services : List RdapDNSservice)
    (m0 m : String → Option (List String))
    (h : buildMap services m0 = .ok m) (label : String) :
    m label = (lastTupleEndpoints services label).or (m0 label) := by
  induction services generalizing m0 with
  | nil =>
    injection h with h'
    subst h'
    simp [lastTupleEndpoints]
  | cons hd tl ih =>
    rcases hd with _ | ⟨tds, _ | ⟨urls, _ | ⟨x, r⟩⟩⟩
    · simp [buildMap] at h
    · simp [buildMap] at h
    · rw [show buildMap ([tds, urls] :: tl) m0 =
          buildMap tl (insertService m0 tds urls) from rfl] at h
      rw [ih (insertService m0 tds urls) h, lastTupleEndpoints_cons,
        insertService_lookup]
      cases hlt : lastTupleEndpoints tl label with
      | some u => simp
      | none =>
        by_cases hmem : label ∈ tds
        · simp [hmem]
        · simp [hmem]
    · simp [buildMap] at h

/-- Claim C7: when the directory build succeeds, every label resolves to the
endpoint list of the last service tuple (in document order) containing that
label — later tuples silently overwrite earlier ones. -/
theorem lookupMap_last_write_wins (dns : RdapDNS)
    (m : String → Option (List String))
    (h : RdapDNS.LookupMap (some dns) = .ok m) (label : String) :
    m label = lastTupleEndpoints dns.Services label := by
  simp only [RdapDNS.LookupMap] at h
  by_cases hlen : dns.Services.length = 0
  · rw [if_pos hlen] at h
    cases h
  · rw [if_neg hlen] at h
    have hq := buildMap_ok_lookup dns.Services emptyRdapMap m h label
    simpa [emptyRdapMap, Option.or_none] using hq

/-- Witness for C7: with two tuples both containing "com", the built directory
returns the second tuple's endpoints. -/
theorem lookupMap_last_write_wins_witness :
    insertService (insertService emptyRdapMap ["com"] ["u1"]) ["com"] ["u2"] "com" =
      lastTupleEndpoints [[["com"], ["u1"]], [["com"], ["u2"]]] "com" ∧
    lastTupleEndpoints [[["com"], ["u1"]], [["com"], ["u2"]]] "com" = some ["u2"] :=
  ⟨lookupMap_last_write_wins ⟨"", "", [[["com"], ["u1"]], [["com"], ["u2"]]]⟩
    (insertService (insertService emptyRdapMap ["com"] ["u1"]) ["com"] ["u2"]) rfl "com",
   by decide⟩


/-- Helper for the dispatcher invariant: emitting the outcome of one in-flight
domain and removing it from the in-flight set permutes the combined
emitted/in-flight/pending outcome list. -/
theorem emit_perm (f : String → DomainLookupResult) (res : List DomainLookupResult)
    (inflight unchecked : List String) (d : String) (hd : d ∈ inflight) :
    ((res ++ [f d]) ++ ((inflight.erase d ++ unchecked).map f)).Perm
      (res ++ ((inflight ++ unchecked).map f)) := by
  have hperm : (inflight.map f).Perm (f d :: (inflight.erase d).map f) :=
    (List.perm_cons_erase hd).map f
  have hre : (res ++ [f d]) ++ ((inflight.erase d ++ unchecked).map f)
      = res ++ ((f d :: (inflight.erase d).map f) ++ unchecked.map f) := by
    simp [List.map_append, List.append_assoc]
  rw [hre]
  simp only [List.map_append]
  exact List.Perm.append_left res (List.Perm.append_right (unchecked.map f) hperm.symm)

/-- Inductive invariant of `LookupWorker.Start`: the semaphore token count
equals the number of in-flight goroutines and never exceeds the concurrency
limit; emitted, in-flight and pending outcomes together are a permutation of
the outcomes of all input domains; once the Result channel is closed nothing
is pending or in flight. -/
theorem startReachable_invariant (w : LookupWorker)
    (http : String → Except String Int) (domains : List String) (s : StartState)
    (h : StartReachable w http (initState domains) s) :
    s.sem = s.inflight.length ∧ s.sem ≤ w.concurrencyLimit ∧
    (s.Result ++ (s.inflight ++ s.unchecked).map
        (fun d => (lookupTask w.rdapLookupMap http d).1)).Perm
      (domains.map (fun d => (lookupTask w.rdapLookupMap http d).1)) ∧
    (s.closed = true → s.inflight = [] ∧ s.unchecked = []) := by
  induction h with
  | refl => simp [initState]
  | @tail b c hsteps hstep ih =>
    obtain ⟨ih1, ih2, ih3, ih4⟩ := ih
    cases hstep with
    | dispatch d rest t hq hsem hc =>
      refine ⟨?_, ?_, ?_, ?_⟩
      · show b.sem + 1 = (b.inflight ++ [d]).length
        simp [ih1]
      · show b.sem + 1 ≤ w.concurrencyLimit
        omega
      · show (b.Result ++ ((b.inflight ++ [d]) ++ rest).map
            (fun d => (lookupTask w.rdapLookupMap http d).1)).Perm
          (domains.map (fun d => (lookupTask w.rdapLookupMap http d).1))
        rw [hq] at ih3
        simpa [List.append_assoc] using ih3
      · show false = true → _
        intro hcl
        cases hcl
    | finish d t hd hc =>
      refine ⟨?_, ?_, ?_, ?_⟩
      · show b.sem - 1 = (b.inflight.erase d).length
        rw [List.length_erase_of_mem hd]
        omega
      · show b.sem - 1 ≤ w.concurrencyLimit
        omega
      · show ((b.Result ++ [(lookupTask w.rdapLookupMap http d).1]) ++
            ((b.inflight.erase d ++ b.unchecked).map
              (fun d => (lookupTask w.rdapLookupMap http d).1))).Perm
          (domains.map (fun d => (lookupTask w.rdapLookupMap http d).1))
        exact List.Perm.trans
          (emit_perm (fun d => (lookupTask w.rdapLookupMap http d).1)
            b.Result b.inflight b.unchecked d hd) ih3
      · show false = true → _
        intro hcl
        cases hcl
    | close t hq hi hc =>
      refine ⟨?_, ?_, ?_, ?_⟩
      · show b.sem = ([] : List String).length
        rw [hi] at ih1
        simpa using ih1
      · show b.sem ≤ w.concurrencyLimit
        exact ih2
      · show (b.Result ++ (([] : List String) ++ ([] : List String)).map
            (fun d => (lookupTask w.rdapLookupMap http d).1)).Perm
          (domains.map (fun d => (lookupTask w.rdapLookupMap http d).1))
        rw [hq, hi] at ih3
        simpa using ih3
      · intro
        exact ⟨rfl, rfl⟩

/-- Claim C3: for any concurrency limit C ≥ 1 and any input, the number of
in-flight lookup tasks never exceeds C in any reachable state, and the
semaphore token count always equals the number of in-flight tasks (one slot is
held from the moment a task starts until the moment it ends). -/
theorem start_concurrency_bound (w : LookupWorker)
    (http : String → Except String Int) (domains : List String) (s : StartState)
    (hC : 1 ≤ w.concurrencyLimit)
    (h : StartReachable w http (initState domains) s) :
    s.inflight.length ≤ w.concurrencyLimit ∧ s.sem = s.inflight.length := by
  obtain ⟨h1, h2, _, _⟩ := startReachable_invariant w http domains s h
  omega

/-- Witness for C3 at a concrete reachable state. -/
theorem start_concurrency_bound_witness :
    (initState ["a.com"]).inflight.length ≤ 1 ∧
    (initState ["a.com"]).sem = (initState ["a.com"]).inflight.length :=
  start_concurrency_bound ⟨fun _ => none, 1⟩ (fun _ => Except.error "dial error")
    ["a.com"] (initState ["a.com"]) (by decide) Relation.ReflTransGen.refl

/-- Helper for C1 (liveness): from a state with an empty in-flight set, no
semaphore tokens and an open Result channel, the dispatcher can always drain
the remaining feed and close the Result channel, provided the concurrency
limit is at least 1. -/
theorem start_reach_closed (w : LookupWorker)
    (http : String → Except String Int) (hC : 1 ≤ w.concurrencyLimit) :
    ∀ (u : List String) (r : List DomainLookupResult),
      ∃ t, Relation.ReflTransGen (StartStep w http) ⟨u, [], 0, r, false⟩ t ∧
        t.closed = true := by
  intro u
  induction u with
  | nil =>
    intro r
    exact ⟨⟨[], [], 0, r, true⟩,
      Relation.ReflTransGen.single (StartStep.close _ rfl rfl rfl), rfl⟩
  | cons d rest ih =>
    intro r
    have st1 : StartStep w http ⟨d :: rest, [], 0, r, false⟩ ⟨rest, [d], 1, r, false⟩ :=
      StartStep.dispatch d rest _ rfl hC rfl
    have st2 : StartStep w http ⟨rest, [d], 1, r, false⟩
        ⟨rest, [], 0, r ++ [(lookupTask w.rdapLookupMap http d).1], false⟩ := by
      have hstep := @StartStep.finish w http d ⟨rest, [d], 1, r, false⟩ (by simp) rfl
      simpa using hstep
    obtain ⟨t, ht, hcl⟩ := ih (r ++ [(lookupTask w.rdapLookupMap http d).1])
    exact ⟨t, Relation.ReflTransGen.head st1 (Relation.ReflTransGen.head st2 ht), hcl⟩

/-- Claim C1: in every reachable state of the dispatcher no more outcomes have
been emitted than domains were enqueued, and whenever the Result channel is
closed the emitted outcomes are exactly one per input domain (a permutation of
the per-domain outcomes, hence equal in number — zero for the empty input);
moreover a closed state carrying the full outcome count is always reachable. -/
theorem start_outcomes_match_inputs (w : LookupWorker)
    (http : String → Except String Int) (domains : List String)
    (hC : 1 ≤ w.concurrencyLimit) :
    (∀ s, StartReachable w http (initState domains) s →
      s.Result.length ≤ domains.length ∧
      (s.closed = true →
        s.Result.Perm (domains.map (fun d => (lookupTask w.rdapLookupMap http d).1)))) ∧
    (∃ t, StartReachable w http (initState domains) t ∧ t.closed = true ∧
      t.Result.Perm (domains.map (fun d => (lookupTask w.rdapLookupMap http d).1)) ∧
      t.Result.length = domains.length) := by
  have safety : ∀ s, StartReachable w http (initState domains) s →
      s.Result.length ≤ domains.length ∧
      (s.closed = true →
        s.Result.Perm (domains.map (fun d => (lookupTask w.rdapLookupMap http d).1))) := by
    intro s hs
    obtain ⟨_, _, h3, h4⟩ := startReachable_invariant w http domains s hs
    constructor
    · have hlen := h3.length_eq
      simp only [List.length_append, List.length_map] at hlen
      omega
    · intro hcl
      obtain ⟨hi, hu⟩ := h4 hcl
      rw [hi, hu] at h3
      simpa using h3
  refine ⟨safety, ?_⟩
  obtain ⟨t, ht, hcl⟩ := start_reach_closed w http hC domains []
  have hperm := (safety t ht).2 hcl
  exact ⟨t, ht, hcl, hperm, by rw [hperm.length_eq, List.length_map]⟩

/-- Witness for C1: for the empty input with concurrency limit 1, a closed
state with zero outcomes is reached. -/
theorem start_outcomes_match_inputs_witness :
    ∃ t, StartReachable ⟨fun _ => none, 1⟩ (fun _ => Except.error "dial error")
        (initState []) t ∧ t.closed = true ∧
      t.Result.Perm (([] : List String).map
        (fun d => (lookupTask (fun _ => none) (fun _ => Except.error "dial error") d).1)) ∧
      t.Result.length = ([] : List String).length :=
  (start_outcomes_match_inputs ⟨fun _ => none, 1⟩
    (fun _ => Except.error "dial error") [] (by decide)).2
